import Mathlib

/-!
Verification of the tf2onnx `onnx_opset/nn.py` rewrite rules: a shallow
embedding of the layout converter (`spatial_map`, `conv_convert_inputs`),
the padding calculator (`add_padding`), the batch-normalization output
pruning, the Pad dtype-cast insertion, the sparse-softmax construction
choice and the MatrixBandPart loop synthesis, together with theorems
settling the specification claims about them.
-/

/-- Modelled from the spec: `constants.NHWC_TO_NCHW`, the channel-last to
channel-first axis permutation for rank-4 tensors (batch, height, width,
channel becomes batch, channel, height, width). -/
def NHWC_TO_NCHW : List Nat := [0, 3, 1, 2]

/-- Modelled from the spec: `constants.NCHW_TO_NHWC`, the channel-first to
channel-last axis permutation, inverse of `NHWC_TO_NCHW`. -/
def NCHW_TO_NHWC : List Nat := [0, 2, 3, 1]

/-- Embedding of `spatial_map(shape, perm)` (nn.py lines 27-31): starts from a
copy of `shape` and, for each element `i` of `perm`, writes `shape[perm[i]]`
at position `i`.  Since `perm` is a permutation of the index range, every
position is written exactly once. -/
def spatial_map (shape : List Int) (perm : List Nat) : List Int :=
  perm.foldl (fun ns i => ns.set i (shape.getD (perm.getD i 0) 0)) shape

/-- Attribute effect of `add_padding` on the node (nn.py lines 128-163): either
no attribute is touched, or `auto_pad` is set to the given marker string, or
the `pads` attribute is set to the given numeric list. -/
inductive PadResult where
  | noChange : PadResult
  | autoPad (marker : String) : PadResult
  | pads (values : List Int) : PadResult
deriving DecidableEq

/-- Embedding of `add_padding(ctx, node, kernel_shape, strides, dilations,
spatial)` (nn.py lines 128-163).  `padding` is the decoded `padding`
attribute (absent when the node carries none), `inputShape`/`outputShape` are
`ctx.get_shape` of input 0 / output 0, and `isNhwc` is `node.is_nhwc()`.
The rank-check at line 139 only logs an error and changes nothing, so it has
no counterpart here.  Python list indexing is rendered with `getD _ 0`; the
claims are stated on shapes of the rank the source presupposes.  `pad` is
nonnegative after the `max`, so `Int` division `/ 2` agrees with Python
floor division.  A raised `ValueError` is the `Except.error` case. -/
def add_padding (kernel_shape strides : List Int) (dilations : Option (List Int))
    (spatial : Nat) (padding : Option String) (isNhwc : Bool)
    (inputShape outputShape : List Int) : Except String PadResult :=
  match padding with
  | none => .ok .noChange
  | some p =>
    let dil := dilations.getD (List.replicate (spatial * 2) 1)
    if p = "SAME" then
      let ish := if isNhwc then spatial_map inputShape NHWC_TO_NCHW else inputShape
      let osh := if isNhwc then spatial_map outputShape NHWC_TO_NCHW else outputShape
      if (List.range spatial).any
          (fun i => ish.getD (i + 2) 0 == -1 || osh.getD (i + 2) 0 == -1) then
        .ok (.autoPad "SAME_UPPER")
      else
        let pads0 : List Int := List.replicate (spatial * 2) 0
        let pads := (List.range spatial).foldl
          (fun ps i =>
            let pad := (osh.getD (i + 2) 0 - 1) * strides.getD i 0
                + dil.getD i 0 * kernel_shape.getD i 0 - ish.getD (i + 2) 0
            let pad := max pad 0
            (ps.set i (pad / 2)).set (i + spatial) (pad - pad / 2))
          pads0
        .ok (.pads pads)
    else if p = "VALID" then
      .ok .noChange
    else
      .error ("invalid padding value: " ++ p)

/-- Rank-4 tensor over a 2x2x2x2 index space, used as the stored value of a
constant node in the `conv_convert_inputs` embedding.  Tensors are compared
pointwise, so a changed entry exhibits a changed stored value. -/
def Tensor4 : Type := Fin 2 → Fin 2 → Fin 2 → Fin 2 → Int

/-- numpy semantics of `val.transpose(constants.NHWC_TO_NCHW)`, i.e.
`val.transpose((0, 3, 1, 2))`: axis `k` of the result is axis `perm[k]` of
the argument, so the result at index `(i0, i1, i2, i3)` reads the argument
at `(i0, i2, i3, i1)`. -/
def transposeNHWCtoNCHW (t : Tensor4) : Tensor4 :=
  fun i0 i1 i2 i3 => t i0 i2 i3 i1

/-- State that the input loop of `conv_convert_inputs` (nn.py lines 56-71)
reads from the graph for a given NHWC node: whether `node.inputs[idx]` is a
constant, its stored tensor value, the number of consumers
`len(ctx.find_output_consumers(node.input[idx]))` of the output feeding
input slot `idx`, and `ctx.get_shape(node.input[idx])`. -/
structure ConvNodeState where
  isConst : Nat → Bool
  constValue : Nat → Tensor4
  consumerCount : Nat → Nat
  inputShape : Nat → Option (List Int)

/-- Graph effect of one iteration of the input loop: either the producing
constant's stored tensor value is overwritten in place
(`parent.set_tensor_value`), or a Transpose adapter carrying `perm` is
spliced on the input via `insert_new_node_on_input`, with the permuted
shape recorded on its output when the original shape was known. -/
inductive InputAction where
  | setTensorValue (idx : Nat) (newVal : Tensor4) : InputAction
  | insertTranspose (idx : Nat) (perm : List Nat)
      (adapterShape : Option (List Int)) : InputAction

/-- Embedding of one iteration of the input loop of `conv_convert_inputs`
(nn.py lines 56-71), for an NHWC node.  The in-place branch is guarded by
`node.inputs[idx].is_const() and len(ctx.find_output_consumers(node.input[1])) == 1`:
the consumer count consulted is that of input slot 1, not of input slot
`idx` being converted. -/
def convertOneInput (st : ConvNodeState) (idx : Nat) : InputAction :=
  if st.isConst idx && st.consumerCount 1 == 1 then
    .setTensorValue idx (transposeNHWCtoNCHW (st.constValue idx))
  else
    .insertTranspose idx NHWC_TO_NCHW
      ((st.inputShape idx).map (fun s => spatial_map s NHWC_TO_NCHW))

/-- Encoding of the kernel reshape emitted by `conv_convert_inputs` when
`new_kernel_shape` is non-empty (nn.py lines 95-109): below opset 5 the
Reshape node carries the target shape as its `shape` attribute; from opset
5 on the Reshape takes a freshly created int64 constant holding the target
shape as its second input. -/
inductive KernelReshapeAction where
  | reshapeAttrShape (shape : List Int) : KernelReshapeAction
  | reshapeConstInput (constVal : List Int) : KernelReshapeAction
deriving DecidableEq

/-- Result of the kernel-reshape block: the emitted Reshape encoding plus the
shape recorded on the Reshape output by `ctx.set_shape(reshape.output[0],
new_kernel_shape)` (nn.py line 110). -/
structure KernelReshapeResult where
  action : KernelReshapeAction
  outShape : List Int
deriving DecidableEq

/-- Embedding of the kernel-reshape block of `conv_convert_inputs` (nn.py
lines 95-110).  Python's `if new_kernel_shape:` is falsy for `None` and for
the empty list, both rendered here as the empty list yielding `none`. -/
def kernelReshape (opset : Nat) (new_kernel_shape : List Int) :
    Option KernelReshapeResult :=
  if new_kernel_shape.isEmpty then none
  else if opset < 5 then
    some ⟨.reshapeAttrShape new_kernel_shape, new_kernel_shape⟩
  else
    some ⟨.reshapeConstInput new_kernel_shape, new_kernel_shape⟩

/-- Shapes recorded by one iteration of the output loop of
`conv_convert_inputs` (nn.py lines 114-124): after splicing the Transpose
adapter (perm `NCHW_TO_NHWC`) on the output, the adapter output gets the
original NHWC `output_shape` and the now-internal conv output gets
`spatial_map(output_shape, NHWC_TO_NCHW)`.  First component: adapter
output shape; second: internal node output shape. -/
def convertOneOutputShapes (output_shape : List Int) : List Int × List Int :=
  (output_shape, spatial_map output_shape NHWC_TO_NCHW)

/-- Embedding of the unused-output pruning in `BatchNorm.version_6` (nn.py
lines 436-439): the consumer lists of all outputs after the first are
collected; when none is non-empty the node's output list is truncated to
just the first output (`node.output = [node.output[0]]`), otherwise it is
left unchanged.  The path raises no error. -/
def batchNormPruneOutputs (outputs : List String)
    (find_output_consumers : String → List String) : List String :=
  let consumers := (outputs.drop 1).map find_output_consumers
  if consumers.all List.isEmpty then outputs.take 1 else outputs

/-- onnx `TensorProto.FLOAT` element-type code. -/
def TensorProtoFLOAT : Nat := 1

/-- onnx `TensorProto.FLOAT16` element-type code. -/
def TensorProtoFLOAT16 : Nat := 10

/-- onnx `TensorProto.DOUBLE` element-type code. -/
def TensorProtoDOUBLE : Nat := 11

/-- onnx `TensorProto.INT32` element-type code, used as a sample non-float
dtype. -/
def TensorProtoINT32 : Nat := 6

/-- Cast insertion performed by `Pad.version_1` (nn.py lines 409-421):
whether a Cast-to-FLOAT was spliced before the pad input (with FLOAT
recorded as the dtype of its output), and the dtype and shape recorded on
the final output of the rewritten subgraph.  When casts are inserted the
final output is the cast-back node's output (`insert_new_node_on_output`
rewires all consumers to it); its dtype is set back to the original dtype
and its shape copied from the Pad node.  When the original dtype is
FLOAT16, FLOAT or DOUBLE nothing is inserted and the final output is the
Pad node's own output. -/
structure PadCastPlan where
  castToFloatInserted : Bool
  castNodeDtype : Option Nat
  finalDtype : Nat
  finalShape : List Int
deriving DecidableEq

/-- Embedding of the dtype-cast block of `Pad.version_1` (nn.py lines
409-421). `origin_dtype` is `ctx.get_dtype(node.output[0])` and
`nodeShape` the shape of the Pad node's output that `ctx.copy_shape`
copies. -/
def padVersion1CastPlan (origin_dtype : Nat) (nodeShape : List Int) :
    PadCastPlan :=
  if origin_dtype = TensorProtoFLOAT16 ∨ origin_dtype = TensorProtoFLOAT
      ∨ origin_dtype = TensorProtoDOUBLE then
    ⟨false, none, origin_dtype, nodeShape⟩
  else
    ⟨true, some TensorProtoFLOAT, origin_dtype, nodeShape⟩

/-- Modelled from the spec: `utils.ONNX_UNKNOWN_DIMENSION`, the sentinel for
a dimension unknown at rewrite time.  `utils` is not part of the visible
source; nn.py itself compares unknown dimensions against `-1` (lines 146,
517, 785), fixing the sentinel's value. -/
def ONNX_UNKNOWN_DIMENSION : Int := -1

/-- numpy `np.eye(n)`: the n-by-n identity matrix materialized as the
one-hot table by `SparseSoftmaxCrossEntropyWithLogits.version_7`. -/
def eyeMat (n : Nat) : Nat → Nat → Int :=
  fun i j => if i = j then 1 else 0

/-- onnx `Gather(eye, indices, axis=0)` row selection on the materialized
identity: row `r` of the result is row `indices r` of `eyeMat depth`. -/
def closedFormOnehot (depth : Nat) (indices : Nat → Nat) : Nat → Nat → Int :=
  fun r j => eyeMat depth (indices r) j

/-- Which construction `SparseSoftmaxCrossEntropyWithLogits.version_7`
builds: the GatherND-based fallback
(`sparse_softmax_cross_entropy_with_logits_op_by_gathernd`), or the
closed-form pipeline that materializes `np.eye(depth)` as a constant and
Gathers one-hot rows from it. -/
inductive SparseConstruction where
  | gatherND : SparseConstruction
  | closedForm (depth : Nat) : SparseConstruction
deriving DecidableEq

/-- Embedding of the dispatch in
`SparseSoftmaxCrossEntropyWithLogits.version_7` (nn.py lines 739-760):
rank of the label input must be 1 (`ValueError` otherwise); `depth` is the
last element of the logits shape (`ctx.get_shape(logit_name)[-1]`, rendered
`getLastD 0` on the non-empty shapes the source presupposes); the GatherND
fallback is chosen when `depth == utils.ONNX_UNKNOWN_DIMENSION or depth >
20000`, and otherwise `np.eye(depth)` is materialized. -/
def sparseSoftmaxV7Choice (indicesShape logitShape : List Int) :
    Except String SparseConstruction :=
  if indicesShape.length ≠ 1 then
    .error "onehot op: only rank1 is supported"
  else
    let depth := logitShape.getLastD 0
    if depth = ONNX_UNKNOWN_DIMENSION ∨ depth > 20000 then
      .ok .gatherND
    else
      .ok (.closedForm depth.toNat)

/-- Parameter selection of `MatrixBandPart.version_7` (nn.py line 563):
`(axis, counter_axis, squeeze_axis)` is `(1, 0, 2)` for band specification
`[-1, 0]` (lower triangular) and `(0, 1, 1)` for `[0, -1]`; every other
band specification fails `utils.make_sure`. -/
def matrixBandPartParams (bandpart : List Int) : Option (Nat × Nat × Nat) :=
  if bandpart = [-1, 0] then some (1, 0, 2)
  else if bandpart = [0, -1] then some (0, 1, 1)
  else none

/-- Denotation of `Gather(input, [0], axis=1)` followed by `Cast to BOOL`
(nn.py lines 566-571) for the lower-triangular case on a 4x4 input: the
first column of the matrix, with onnx bool cast mapping nonzero to true.
The trailing length-1 axis of the (4, 1) gather result is left implicit;
all per-line nodes below operate on such columns. -/
def mbpFirstColBool (m : Fin 4 → Fin 4 → Int) : Fin 4 → Bool :=
  fun r => decide (m r 0 ≠ 0)

/-- Denotation of `Xor` of a line with itself (nn.py line 573): the all-false
line of the same shape. -/
def mbpZeroLine (line : Fin 4 → Bool) : Fin 4 → Bool :=
  fun r => xor (line r) (line r)

/-- Denotation of `Not` (nn.py line 574): elementwise boolean negation. -/
def mbpNotLine (line : Fin 4 → Bool) : Fin 4 → Bool :=
  fun r => !(line r)

/-- Denotation of one iteration of the synthesized loop body (nn.py lines
583-592) in the lower-triangular case: `Concat([[False]], line, axis=0)`
prepends a false entry and `Slice(axes=[0], starts=[0], ends=[-1])` drops
the last entry, so row `r` of the new line is false for `r = 0` and the old
row `r - 1` otherwise. -/
def mbpShift (line : Fin 4 → Bool) : Fin 4 → Bool :=
  fun r => if h : (r : Nat) = 0 then false
    else line ⟨(r : Nat) - 1, by omega⟩

/-- Carried loop state before iteration `k`: the initial line is
`Not(Xor(c, c))` of the casted first column (all true, nn.py lines
566-574, fed as `col_init`), and each iteration replaces the line by its
shift (the body's `line_out`). -/
def mbpLineAt (m : Fin 4 → Fin 4 → Int) : Nat → (Fin 4 → Bool)
  | 0 => mbpNotLine (mbpZeroLine (mbpFirstColBool m))
  | k + 1 => mbpShift (mbpLineAt m k)

/-- Scan output of the Loop node after `Squeeze(axes=[2])` (nn.py lines
590-615): the body's `res` output is the incoming line of each iteration,
stacked along a new leading axis over the 4 iterations (trip count =
`shape[axis] = 4`), so entry `(k, r)` is row `r` of the line before
iteration `k`. -/
def mbpScan (m : Fin 4 → Fin 4 → Int) : Fin 4 → Fin 4 → Bool :=
  fun k r => mbpLineAt m (k : Nat) r

/-- Mask matrix after `Cast to FLOAT`, `Transpose` (taken since
`axis == 1`) and `Cast` back to the input dtype (nn.py lines 616-622),
with exact values over the integers: true becomes 1, false becomes 0. -/
def mbpMask (m : Fin 4 → Fin 4 → Int) : Fin 4 → Fin 4 → Int :=
  fun i j => if mbpScan m j i then 1 else 0

/-- Final `Mul(mask, input)` (nn.py lines 626-628): the elementwise product
of the synthesized mask with the original input. -/
def mbpResult (m : Fin 4 → Fin 4 → Int) : Fin 4 → Fin 4 → Int :=
  fun i j => mbpMask m i j * m i j

/-- Concrete non-symmetric tensor: entry at `(i0, i1, i2, i3)` is the second
index, so it is distinguishable from its transpose. -/
def sharedConstTensor : Tensor4 :=
  fun _ i1 _ _ => (i1.val : Int)

/-- Concrete graph neighbourhood for the `conv_convert_inputs` input loop:
input slot 0 is fed by a constant holding `sharedConstTensor` whose output
has two consumers, while the output feeding input slot 1 has exactly one
consumer. -/
def sharedConstState : ConvNodeState where
  isConst := fun idx => idx == 0
  constValue := fun _ => sharedConstTensor
  consumerCount := fun idx => if idx = 0 then 2 else 1
  inputShape := fun _ => none

/-- Invariant of the carried loop line in the MatrixBandPart synthesis: the
line before iteration `k` is true exactly on rows `r` with `k ≤ r`, because
the initial line is all-true and each iteration shifts a false entry in at
row 0. -/
theorem mbpLineAt_spec (m : Fin 4 → Fin 4 → Int) :
    ∀ (k : Nat) (r : Fin 4), mbpLineAt m k r = decide (k ≤ (r : Nat)) := by
  intro k
  induction k with
  | zero =>
    intro r
    simp [mbpLineAt, mbpNotLine, mbpZeroLine]
  | succ k ih =>
    intro r
    by_cases h : (r : Nat) = 0
    · simp [mbpLineAt, mbpShift, h]
    · simp only [mbpLineAt, mbpShift, dif_neg h, ih]
      simp only [decide_eq_decide]
      omega

/-- C1: for a SAME-padded node with all spatial dimensions known,
`add_padding` does NOT compute `total_pad = max(0, (output-1)*stride +
dilation*(kernel-1) + 1 - input)` on each axis: with kernel 3, stride 1,
dilation 2, input 5 and output 5 the code stores pads summing to 5 per
axis (`dilations[i] * kernel_shape[i]` in the formula), while the claimed
formula gives total_pad 4. -/
theorem add_padding_same_dilated_diverges :
    add_padding [3, 3] [1, 1] (some [2, 2]) 2 (some "SAME") false
      [1, 1, 5, 5] [1, 1, 5, 5] = .ok (.pads [2, 2, 3, 3])
    ∧ (2 : Int) + 3 ≠ max 0 ((5 - 1) * 1 + 2 * (3 - 1) + 1 - 5) :=
  ⟨rfl, by decide⟩

/-- C2: in the input loop of `conv_convert_inputs`, a constant feeding input
slot 0 whose output has TWO consumers still has its stored tensor value
permuted in place whenever the output feeding input slot 1 has exactly one
consumer, because the single-consumer guard consults `node.input[1]`
instead of the input being converted; the stored value afterwards differs
from the original. -/
theorem conv_convert_inputs_mutates_shared_const :
    convertOneInput sharedConstState 0
      = .setTensorValue 0 (transposeNHWCtoNCHW sharedConstTensor)
    ∧ sharedConstState.consumerCount 0 = 2
    ∧ transposeNHWCtoNCHW sharedConstTensor 0 0 1 0 ≠ sharedConstTensor 0 0 1 0 :=
  ⟨rfl, rfl, by decide⟩

/-- C3: for a SAME-padded node, whenever some input or output spatial
dimension (positions 2.. of the channel-first shape) is the unknown
sentinel -1, `add_padding` sets `auto_pad` to `SAME_UPPER`, stores no
numeric pads and raises no error, regardless of the other dimensions. -/
theorem add_padding_unknown_dim_auto_pad
    (kernel_shape strides : List Int) (dilations : Option (List Int))
    (spatial : Nat) (isNhwc : Bool) (inputShape outputShape : List Int)
    (h : ∃ i, i < spatial ∧
      ((if isNhwc then spatial_map inputShape NHWC_TO_NCHW else inputShape).getD (i + 2) 0 = -1
        ∨ (if isNhwc then spatial_map outputShape NHWC_TO_NCHW else outputShape).getD (i + 2) 0 = -1)) :
    add_padding kernel_shape strides dilations spatial (some "SAME") isNhwc
      inputShape outputShape = .ok (.autoPad "SAME_UPPER") := by
  obtain ⟨i, hi, hcase⟩ := h
  have hany : (List.range spatial).any
      (fun i => ((if isNhwc then spatial_map inputShape NHWC_TO_NCHW else inputShape).getD (i + 2) 0 == -1)
        || ((if isNhwc then spatial_map outputShape NHWC_TO_NCHW else outputShape).getD (i + 2) 0 == -1)) = true := by
    rw [List.any_eq_true]
    refine ⟨i, List.mem_range.mpr hi, ?_⟩
    simp only [Bool.or_eq_true, beq_iff_eq]
    exact hcase
  simp only [add_padding]
  rw [if_pos trivial, if_pos hany]

/-- Witness for C3 at concrete shapes with one unknown input spatial
dimension. -/
theorem add_padding_unknown_dim_auto_pad_witness :
    add_padding [3, 3] [1, 1] none 2 (some "SAME") false
      [1, 1, -1, 5] [1, 1, 2, 5] = .ok (.autoPad "SAME_UPPER") :=
  add_padding_unknown_dim_auto_pad [3, 3] [1, 1] none 2 false
    [1, 1, -1, 5] [1, 1, 2, 5] ⟨0, by decide, Or.inl (by decide)⟩

/-- C4: for any rank-4 shape, `spatial_map` with the channel-last to
channel-first permutation followed by `spatial_map` with the inverse
permutation reproduces the shape; and after output conversion the spliced
transpose adapter carries the original shape while the internal node output
carries the permuted shape, from which the inverse permutation recovers the
original. -/
theorem spatial_map_roundtrip_and_output_shapes (s : List Int)
    (h : s.length = 4) :
    spatial_map (spatial_map s NHWC_TO_NCHW) NCHW_TO_NHWC = s
    ∧ (convertOneOutputShapes s).1 = s
    ∧ (convertOneOutputShapes s).2 = spatial_map s NHWC_TO_NCHW
    ∧ spatial_map (convertOneOutputShapes s).2 NCHW_TO_NHWC = s := by
  obtain ⟨a, b, c, d, rfl⟩ : ∃ a b c d, s = [a, b, c, d] := by
    rcases s with _ | ⟨a, _ | ⟨b, _ | ⟨c, _ | ⟨d, _ | ⟨e, t⟩⟩⟩⟩⟩ <;>
        simp only [List.length_cons, List.length_nil] at h <;> try omega
    exact ⟨a, b, c, d, rfl⟩
  exact ⟨rfl, rfl, rfl, rfl⟩

/-- Witness for C4 at the concrete shape [2, 3, 5, 7]. -/
theorem spatial_map_roundtrip_and_output_shapes_witness :
    spatial_map (spatial_map [2, 3, 5, 7] NHWC_TO_NCHW) NCHW_TO_NHWC = [2, 3, 5, 7]
    ∧ (convertOneOutputShapes [2, 3, 5, 7]).1 = [2, 3, 5, 7]
    ∧ (convertOneOutputShapes [2, 3, 5, 7]).2 = spatial_map [2, 3, 5, 7] NHWC_TO_NCHW
    ∧ spatial_map (convertOneOutputShapes [2, 3, 5, 7]).2 NCHW_TO_NHWC = [2, 3, 5, 7] :=
  spatial_map_roundtrip_and_output_shapes [2, 3, 5, 7] rfl

/-- C5: when `conv_convert_inputs` receives a non-empty `new_kernel_shape`,
the kernel reshape is attribute-carried exactly below opset 5 and takes a
fresh int64 shape constant as second input exactly from opset 5 on; in
both cases the recorded shape of the Reshape output is `new_kernel_shape`. -/
theorem kernelReshape_opset_selects_encoding (opset : Nat)
    (nks : List Int) (h : nks ≠ []) :
    (opset < 5 →
      kernelReshape opset nks = some ⟨.reshapeAttrShape nks, nks⟩)
    ∧ (5 ≤ opset →
      kernelReshape opset nks = some ⟨.reshapeConstInput nks, nks⟩) := by
  rcases nks with _ | ⟨x, xs⟩
  · exact absurd rfl h
  · constructor
    · intro hop
      simp [kernelReshape, hop]
    · intro hop
      simp [kernelReshape, Nat.not_lt.mpr hop]

/-- Witness for C5 at opsets 4 and 5 with a depthwise-style kernel shape. -/
theorem kernelReshape_opset_selects_encoding_witness :
    kernelReshape 4 [4, 1, 3, 3]
      = some ⟨.reshapeAttrShape [4, 1, 3, 3], [4, 1, 3, 3]⟩
    ∧ kernelReshape 5 [4, 1, 3, 3]
      = some ⟨.reshapeConstInput [4, 1, 3, 3], [4, 1, 3, 3]⟩ :=
  ⟨(kernelReshape_opset_selects_encoding 4 [4, 1, 3, 3] (by decide)).1 (by decide),
   (kernelReshape_opset_selects_encoding 5 [4, 1, 3, 3] (by decide)).2 (by decide)⟩

/-- C6: the version-7 sparse-softmax rewrite chooses the gather-based
fallback exactly when the class count (last dimension of the logits shape)
is the unknown sentinel or exceeds 20000; otherwise it builds the closed
form over `np.eye(depth)`, whose gathered rows are one-hot indicators. -/
theorem sparseSoftmaxV7_choice_spec (indicesShape logitShape : List Int)
    (h : indicesShape.length = 1) :
    (sparseSoftmaxV7Choice indicesShape logitShape = .ok .gatherND
      ↔ (logitShape.getLastD 0 = -1 ∨ logitShape.getLastD 0 > 20000))
    ∧ (¬(logitShape.getLastD 0 = -1 ∨ logitShape.getLastD 0 > 20000) →
      sparseSoftmaxV7Choice indicesShape logitShape
        = .ok (.closedForm (logitShape.getLastD 0).toNat))
    ∧ (∀ (d : Nat) (indices : Nat → Nat) (r j : Nat),
      closedFormOnehot d indices r j = if indices r = j then 1 else 0) := by
  have key : sparseSoftmaxV7Choice indicesShape logitShape
      = if logitShape.getLastD 0 = ONNX_UNKNOWN_DIMENSION
          ∨ logitShape.getLastD 0 > 20000
        then .ok .gatherND
        else .ok (.closedForm (logitShape.getLastD 0).toNat) := by
    unfold sparseSoftmaxV7Choice
    rw [if_neg (by simp [h])]
  refine ⟨⟨fun hres => ?_, fun hcond => ?_⟩, fun hcond => ?_,
    fun d indices r j => rfl⟩
  · by_contra hcond
    rw [key, if_neg (by simpa [ONNX_UNKNOWN_DIMENSION] using hcond)] at hres
    simp at hres
  · rw [key, if_pos (by simpa [ONNX_UNKNOWN_DIMENSION] using hcond)]
  · rw [key, if_neg (by simpa [ONNX_UNKNOWN_DIMENSION] using hcond)]

/-- Witness for C6: known depth 10 picks the closed form, unknown depth
picks the gather fallback. -/
theorem sparseSoftmaxV7_choice_spec_witness :
    sparseSoftmaxV7Choice [3] [2, 10] = .ok (.closedForm 10)
    ∧ sparseSoftmaxV7Choice [3] [2, -1] = .ok .gatherND :=
  ⟨(sparseSoftmaxV7_choice_spec [3] [2, 10] rfl).2.1 (by decide),
   (sparseSoftmaxV7_choice_spec [3] [2, -1] rfl).1.mpr (by decide)⟩

/-- C7: a batch-normalization node declaring three outputs whose two
auxiliary outputs have no consumers is rewritten to declare only the first
output; the pruning path raises no error (the embedding is a total
function). -/
theorem batchNorm_prunes_unused_outputs (y m v : String)
    (find_output_consumers : String → List String)
    (hm : find_output_consumers m = []) (hv : find_output_consumers v = []) :
    batchNormPruneOutputs [y, m, v] find_output_consumers = [y] := by
  simp [batchNormPruneOutputs, hm, hv]

/-- Witness for C7 with concrete output names and an empty consumer
relation on the auxiliary outputs. -/
theorem batchNorm_prunes_unused_outputs_witness :
    batchNormPruneOutputs ["y", "batch_mean", "batch_var"] (fun _ => []) = ["y"] :=
  batchNorm_prunes_unused_outputs "y" "batch_mean" "batch_var" (fun _ => []) rfl rfl

/-- C8: for every 4x4 input matrix, the MatrixBandPart synthesis for band
specification `[-1, 0]` (mask loop followed by elementwise multiplication)
zeroes exactly the strictly-upper-triangular entries and keeps all other
entries unchanged. -/
theorem matrixBandPart_lower_triangular (m : Fin 4 → Fin 4 → Int)
    (i j : Fin 4) :
    mbpResult m i j = if (i : Nat) < (j : Nat) then 0 else m i j := by
  unfold mbpResult mbpMask mbpScan
  rw [mbpLineAt_spec]
  by_cases h : (i : Nat) < (j : Nat)
  · rw [if_pos h, decide_eq_false (by omega : ¬((j : Nat) ≤ (i : Nat)))]
    simp
  · rw [if_neg h, decide_eq_true (by omega : (j : Nat) ≤ (i : Nat))]
    simp

/-- C9: `add_padding` on a node with a decoded `padding` of VALID changes
nothing, and on any policy string other than SAME and VALID raises a
`ValueError` naming the invalid padding value, setting neither pads nor
auto_pad. -/
theorem add_padding_valid_noop_invalid_raises
    (kernel_shape strides : List Int) (dilations : Option (List Int))
    (spatial : Nat) (isNhwc : Bool) (inputShape outputShape : List Int)
    (p : String) :
    (add_padding kernel_shape strides dilations spatial (some "VALID") isNhwc
      inputShape outputShape = .ok .noChange)
    ∧ (p ≠ "SAME" → p ≠ "VALID" →
      add_padding kernel_shape strides dilations spatial (some p) isNhwc
        inputShape outputShape = .error ("invalid padding value: " ++ p)) := by
  constructor
  · simp [add_padding]
  · intro h1 h2
    simp [add_padding, h1, h2]

/-- Witness for C9 at the policy string EXPLICIT. -/
theorem add_padding_valid_noop_invalid_raises_witness :
    (add_padding [3, 3] [1, 1] none 2 (some "VALID") false
      [1, 1, 5, 5] [1, 1, 5, 5] = .ok .noChange)
    ∧ (add_padding [3, 3] [1, 1] none 2 (some "EXPLICIT") false
      [1, 1, 5, 5] [1, 1, 5, 5] = .error "invalid padding value: EXPLICIT") :=
  ⟨(add_padding_valid_noop_invalid_raises [3, 3] [1, 1] none 2 false
      [1, 1, 5, 5] [1, 1, 5, 5] "EXPLICIT").1,
   (add_padding_valid_noop_invalid_raises [3, 3] [1, 1] none 2 false
      [1, 1, 5, 5] [1, 1, 5, 5] "EXPLICIT").2 (by decide) (by decide)⟩

/-- C10: the Pad rewrite's cast plan keeps the final recorded dtype equal to
the original dtype and the final recorded shape equal to the node's shape;
a Cast-to-FLOAT is inserted exactly for dtypes other than FLOAT16, FLOAT
and DOUBLE, and the inserted cast's output dtype is FLOAT. -/
theorem padVersion1_cast_preserves_dtype_shape (d : Nat) (sh : List Int) :
    (padVersion1CastPlan d sh).finalDtype = d
    ∧ (padVersion1CastPlan d sh).finalShape = sh
    ∧ ((padVersion1CastPlan d sh).castToFloatInserted = true
      ↔ ¬(d = TensorProtoFLOAT16 ∨ d = TensorProtoFLOAT ∨ d = TensorProtoDOUBLE))
    ∧ (padVersion1CastPlan d sh).castNodeDtype
      = (if d = TensorProtoFLOAT16 ∨ d = TensorProtoFLOAT ∨ d = TensorProtoDOUBLE
        then none else some TensorProtoFLOAT) := by
  by_cases h : d = TensorProtoFLOAT16 ∨ d = TensorProtoFLOAT ∨ d = TensorProtoDOUBLE
  · simp [padVersion1CastPlan, h]
  · simp [padVersion1CastPlan, h]

/-- Witness for C10 at the non-float dtype INT32 and a concrete shape. -/
theorem padVersion1_cast_preserves_dtype_shape_witness :
    (padVersion1CastPlan TensorProtoINT32 [1, 2, 3]).finalDtype = TensorProtoINT32
    ∧ (padVersion1CastPlan TensorProtoINT32 [1, 2, 3]).finalShape = [1, 2, 3]
    ∧ ((padVersion1CastPlan TensorProtoINT32 [1, 2, 3]).castToFloatInserted = true
      ↔ ¬(TensorProtoINT32 = TensorProtoFLOAT16 ∨ TensorProtoINT32 = TensorProtoFLOAT
        ∨ TensorProtoINT32 = TensorProtoDOUBLE))
    ∧ (padVersion1CastPlan TensorProtoINT32 [1, 2, 3]).castNodeDtype
      = (if TensorProtoINT32 = TensorProtoFLOAT16 ∨ TensorProtoINT32 = TensorProtoFLOAT
        ∨ TensorProtoINT32 = TensorProtoDOUBLE then none else some TensorProtoFLOAT) :=
  padVersion1_cast_preserves_dtype_shape TensorProtoINT32 [1, 2, 3]
